import Mathlib

/-!
Shallow embedding of the psa_data_quality cleaning pipeline
(`src/preprocess/eyelink1000plus_data_cleaner.py`,
`src/process/eyelink1000plus_data_processor.py`, `src/process/hm_to_deg.py`,
`src/process/hm_nan_undistort_stabilize.py`, `src/process/hm_distance.py`).

Numeric columns are modelled over `ℚ` (exact arithmetic); a missing value
(pandas `NaN`) is modelled as `Option.none`, and every comparison against a
missing value is `false`, exactly as IEEE `NaN` comparisons evaluate in
pandas/numpy boolean masks.  Square roots are handled as follows: where the
Python code compares `np.sqrt e <= t` the embedding uses the equivalent
decidable comparison `0 ≤ t ∧ e ≤ t^2` (equivalent because `Real.sqrt` is the
monotone inverse of squaring on nonnegatives); theorems about such filters are
then stated and proved with `Real.sqrt` itself.
-/

namespace PSA

/-- One row of the common-format table, restricted to the columns the
cleaning pipeline reads.  `idx` is the pandas row index (used by the
index-based trimming in `hm_to_deg.clean_trials`), `time` is
`TIME_FROM_TRIAL_START_MS`.  `none` models a NaN entry. -/
structure Sample where
  idx : ℤ
  time : Option ℚ
  gaze_x : Option ℚ
  gaze_y : Option ℚ
  gaze_angle_x : Option ℚ
  gaze_angle_y : Option ℚ
  target_angle_x : ℚ
  target_angle_y : ℚ
  pup_diam_l : Option ℚ
  pup_diam_r : Option ℚ
deriving DecidableEq

/-- Maximum of a list (used to model `pandas.Series.max`, which skips NaN:
callers pass the list of non-missing values). -/
def listMax? {α : Type} [LinearOrder α] : List α → Option α
  | [] => none
  | x :: xs => some (match listMax? xs with | none => x | some m => max x m)

/-- Minimum of a list (models `pandas.Series.min`, NaN skipped by callers). -/
def listMin? {α : Type} [LinearOrder α] : List α → Option α
  | [] => none
  | x :: xs => some (match listMin? xs with | none => x | some m => min x m)

/-- The non-missing `TIME_FROM_TRIAL_START_MS` values of a trial group. -/
def times (l : List Sample) : List ℚ := l.filterMap Sample.time

/-- Temporal window extraction (cleaner step 1 / processor step 1): keep the
samples whose time lies in `[max - trial_duration_ms, max]` where `max` is the
group's maximum time (NaN skipped).  A row with missing time fails both
comparisons and is dropped; if every time is missing, `max` is NaN, every
comparison is false and nothing survives. -/
def timeWindow (trial_duration_ms : ℚ) (l : List Sample) : List Sample :=
  match listMax? (times l) with
  | none => []
  | some mx =>
      l.filter (fun s =>
        match s.time with
        | none => false
        | some t => decide (mx - trial_duration_ms ≤ t ∧ t ≤ mx))

/-- Edge trimming for continuous-timestamp sources (cleaner lines 131-148,
processor lines 179-194): when `time_trim > 0`, keep the samples whose time
lies in `[min + range*(time_trim/2)/100, max - range*(time_trim/2)/100]`,
with `min`, `max` and `range` taken over the group being trimmed.  When
`time_trim ≤ 0` the group passes through unchanged (the Python guard
`if time_trim > 0`). -/
def edgeTrim (time_trim : ℚ) (l : List Sample) : List Sample :=
  if 0 < time_trim then
    match listMin? (times l), listMax? (times l) with
    | some mn, some mx =>
        let range := mx - mn
        let start_trim := mn + range * (time_trim / 2) / 100
        let end_trim := mx - range * (time_trim / 2) / 100
        l.filter (fun s =>
          match s.time with
          | none => false
          | some t => decide (start_trim ≤ t ∧ t ≤ end_trim))
    | _, _ => []
  else l

/-- Missing-data removal: `dropna(subset=data_columns)` with the six critical
columns `gaze_x, gaze_y, gaze_angle_x, gaze_angle_y, pup_diam_l, pup_diam_r`. -/
def dropNaN (l : List Sample) : List Sample :=
  l.filter (fun s =>
    s.gaze_x.isSome && s.gaze_y.isSome && s.gaze_angle_x.isSome &&
      s.gaze_angle_y.isSome && s.pup_diam_l.isSome && s.pup_diam_r.isSome)

/-- Squared Euclidean distance between gaze and target in angle space
(`(gaze_angle_x - target_angle_x)**2 + (gaze_angle_y - target_angle_y)**2`);
`none` when either gaze angle is missing (the Python value is NaN). -/
def sqDistToTarget (s : Sample) : Option ℚ :=
  match s.gaze_angle_x, s.gaze_angle_y with
  | some gx, some gy =>
      some ((gx - s.target_angle_x) ^ 2 + (gy - s.target_angle_y) ^ 2)
  | _, _ => none

/-- Spatial distance filtering (cleaner lines 238-245, `hm_to_deg` lines
188-193): keep the samples with `np.sqrt d2 <= distance_threshold`.  Over `ℚ`
this is encoded as `0 ≤ thr ∧ d2 ≤ thr^2`, which agrees with the float
comparison: `Real.sqrt d2 ≤ thr` iff `d2 ≤ thr^2` when `0 ≤ thr`, and is
impossible when `thr < 0` since `Real.sqrt d2 ≥ 0`.  A missing distance (NaN)
compares false and the row is dropped. -/
def distanceFilter (distance_threshold : ℚ) (l : List Sample) : List Sample :=
  l.filter (fun s =>
    match sqDistToTarget s with
    | none => false
    | some d2 => decide (0 ≤ distance_threshold ∧ d2 ≤ distance_threshold ^ 2))

/-- Mean of a list of rationals (`np.nanmean` over the non-missing values;
`ℚ` division by zero yields 0, but the mean of an empty list is never
consulted by the filters below). -/
def qMean (xs : List ℚ) : ℚ := xs.sum / xs.length

/-- Population variance, ddof = 0 (`np.nanstd` squared, scipy's default). -/
def qVar (xs : List ℚ) : ℚ :=
  (xs.map (fun x => (x - qMean xs) ^ 2)).sum / xs.length

/-- One column's z-score acceptance test, `|zscore(x)| < z_threshold` with
`nan_policy="omit"` statistics `xs`.  The float computation is
`|x - mean| / sqrt(variance) < z_threshold`; when the variance is zero the
z-score is `0/0 = NaN` and the comparison is false, and a missing value's
z-score is NaN as well.  For positive variance the comparison is encoded over
`ℚ` as `0 < zt ∧ (x - mean)^2 < zt^2 * variance` (square both sides of a
comparison of nonnegatives; for `zt ≤ 0` the float comparison is false since
the left side is nonnegative). -/
def zKeep (z_threshold : ℚ) (xs : List ℚ) (x : Option ℚ) : Bool :=
  match x with
  | none => false
  | some v =>
      decide (qVar xs ≠ 0 ∧ 0 < z_threshold ∧
        (v - qMean xs) ^ 2 < z_threshold ^ 2 * qVar xs)

/-- Z-score filtering (cleaner lines 247-256, `hm_to_deg` lines 195-203):
for each of `gaze_angle_x`, `gaze_angle_y`, compute z-scores over the
distance-filtered trial and keep a row only if both columns' `|z| < zt`. -/
def zFilter (z_threshold : ℚ) (l : List Sample) : List Sample :=
  let xs := l.filterMap Sample.gaze_angle_x
  let ys := l.filterMap Sample.gaze_angle_y
  l.filter (fun s =>
    zKeep z_threshold xs s.gaze_angle_x && zKeep z_threshold ys s.gaze_angle_y)

/-- Per-trial cleaning as implemented by
`eyelink1000plus_data_cleaner.process_and_clean_data`: temporal window, edge
trim, NaN removal, distance filter, z-score filter.  (The `continue` on an
empty window contributes the empty list, which is what the composition
produces as well since every stage maps `[]` to `[]`.) -/
def cleanerTrial (trial_duration_ms time_trim distance_threshold z_threshold : ℚ)
    (g : List Sample) : List Sample :=
  zFilter z_threshold (distanceFilter distance_threshold
    (dropNaN (edgeTrim time_trim (timeWindow trial_duration_ms g))))

/-- Per-trial cleaning as implemented by
`eyelink1000plus_data_processor.process_and_clean_data`: temporal window
(step 1), NaN removal (step 3 of the file, run on the concatenated windows,
which per-row commutes with the per-trial split), then edge trim (step 4),
distance filter and z-score filter (step 5). -/
def processorTrial (trial_duration_ms time_trim distance_threshold z_threshold : ℚ)
    (g : List Sample) : List Sample :=
  zFilter z_threshold (distanceFilter distance_threshold
    (edgeTrim time_trim (dropNaN (timeWindow trial_duration_ms g))))

/-- Modelled from the spec: the per-trial stage order §4.4 prescribes —
(1) temporal window extraction, (2) edge trimming, (3) missing-data removal,
(4) spatial distance filtering, (5) z-score filtering. -/
def specOrderTrial (trial_duration_ms time_trim distance_threshold z_threshold : ℚ)
    (g : List Sample) : List Sample :=
  zFilter z_threshold (distanceFilter distance_threshold
    (dropNaN (edgeTrim time_trim (timeWindow trial_duration_ms g))))

/-- Python `int()` applied to a rational: truncation toward zero. -/
def truncQ (q : ℚ) : ℤ := if 0 ≤ q then ⌊q⌋ else ⌈q⌉

/-- Index-based trimming of `hm_to_deg.clean_trials` (lines 175-186, same in
`head_mounted_data_cleaner.clean_trials`): with `start_idx`/`end_idx` the
min/max of the trial's pandas index, keep the rows with
`start_idx + int(total*(start_threshold/100)) ≤ idx ≤ end_idx - int(total*(end_threshold/100))`.
A trial group is nonempty by construction, so the no-index case is
unreachable; it is mapped to `[]`. -/
def hmTimeTrim (start_threshold end_threshold : ℚ) (l : List Sample) :
    List Sample :=
  match listMin? (l.map Sample.idx), listMax? (l.map Sample.idx) with
  | some mn, some mx =>
      let total : ℤ := mx - mn
      let keep_start := mn + truncQ ((total : ℚ) * (start_threshold / 100))
      let keep_end := mx - truncQ ((total : ℚ) * (end_threshold / 100))
      l.filter (fun s => decide (keep_start ≤ s.idx ∧ s.idx ≤ keep_end))
  | _, _ => []

/-- Per-trial cleaning of `hm_to_deg.clean_trials`: index-based trim,
distance filter, z-score filter (no temporal window, no NaN-removal stage). -/
def hmCleanTrial (start_threshold end_threshold z_threshold distance_threshold : ℚ)
    (g : List Sample) : List Sample :=
  zFilter z_threshold (distanceFilter distance_threshold
    (hmTimeTrim start_threshold end_threshold g))

/-- Trial condition of the screen-based schema normalization
(`load_and_preprocess_data`, cleaner lines 42-44 / processor lines 68-70):
`"dilated" if idx % 2 == 1 else "constricted"`, computed from `TRIAL_INDEX`
alone. -/
def trial_condition (idx : ℤ) : String :=
  if idx % 2 = 1 then "dilated" else "constricted"

/-- The whole `trial_condition` column, as the list comprehension over the
raw `TRIAL_INDEX` column builds it. -/
def trial_condition_column (idxs : List ℤ) : List String :=
  idxs.map trial_condition

/-- Constant `EYELINK_REFERENCE_VALUE = 11815` (raw pupil area units of the
calibration target). -/
def EYELINK_REFERENCE_VALUE : ℝ := 11815

/-- Constant `EYELINK_REFERENCE_DIAMETER_MM = 15`. -/
def EYELINK_REFERENCE_DIAMETER_MM : ℝ := 15

/-- Pupil area to diameter conversion (cleaner lines 61-70):
`EYELINK_REFERENCE_DIAMETER_MM * np.sqrt(rawArea) / np.sqrt(EYELINK_REFERENCE_VALUE)`. -/
noncomputable def pup_diam_mm (rawArea : ℝ) : ℝ :=
  EYELINK_REFERENCE_DIAMETER_MM * Real.sqrt rawArea /
    Real.sqrt EYELINK_REFERENCE_VALUE

/-- One row of the frame consumed by `undistort_dataframe` and produced by
the stabilization loop of `hm_nan_undistort_stabilize.main`: the six
coordinate pairs the scripts touch.  (`frame` stands for the remaining,
non-coordinate columns, which both transforms leave untouched.) -/
structure StabRow where
  frame : ℤ
  target_x : ℚ
  target_y : ℚ
  top_left_x : ℚ
  top_left_y : ℚ
  top_right_x : ℚ
  top_right_y : ℚ
  bottom_left_x : ℚ
  bottom_left_y : ℚ
  bottom_right_x : ℚ
  bottom_right_y : ℚ
  gaze_x : ℚ
  gaze_y : ℚ
deriving DecidableEq

/-- Add `ox` to every `*_x` column and `oy` to every `*_y` column of a row
(the stabilization loop over `coordinate_cols`, lines 236-245 / 259-269). -/
def shiftRow (r : StabRow) (ox oy : ℚ) : StabRow :=
  { r with
    target_x := r.target_x + ox
    target_y := r.target_y + oy
    top_left_x := r.top_left_x + ox
    top_left_y := r.top_left_y + oy
    top_right_x := r.top_right_x + ox
    top_right_y := r.top_right_y + oy
    bottom_left_x := r.bottom_left_x + ox
    bottom_left_y := r.bottom_left_y + oy
    bottom_right_x := r.bottom_right_x + ox
    bottom_right_y := r.bottom_right_y + oy
    gaze_x := r.gaze_x + ox
    gaze_y := r.gaze_y + oy }

/-- Head stabilization (`hm_nan_undistort_stabilize.main` lines 226-271):
take the first row's target as reference, and shift every coordinate column
of each row by the offset `reference - target` of that row, so that every
row's target lands on the reference.  (The Python indexes `iloc[0]`; the
empty case, impossible for the data the script writes, is mapped to `[]`.) -/
def stabilize : List StabRow → List StabRow
  | [] => []
  | r0 :: rest =>
      (r0 :: rest).map (fun r =>
        shiftRow r (r0.target_x - r.target_x) (r0.target_y - r.target_y))

/-- Undistortion of one row: apply the point-undistortion map `u` (the
OpenCV `cv2.undistortPoints` call, an external routine parameterizing the
embedding) to the six coordinate pairs of `coordinate_pairs`
(`undistort_dataframe`, lines 80-102). -/
def undistortRowWith (u : ℚ × ℚ → ℚ × ℚ) (r : StabRow) : StabRow :=
  let t := u (r.target_x, r.target_y)
  let tl := u (r.top_left_x, r.top_left_y)
  let tr := u (r.top_right_x, r.top_right_y)
  let bl := u (r.bottom_left_x, r.bottom_left_y)
  let br := u (r.bottom_right_x, r.bottom_right_y)
  let g := u (r.gaze_x, r.gaze_y)
  { r with
    target_x := t.1, target_y := t.2
    top_left_x := tl.1, top_left_y := tl.2
    top_right_x := tr.1, top_right_y := tr.2
    bottom_left_x := bl.1, bottom_left_y := bl.2
    bottom_right_x := br.1, bottom_right_y := br.2
    gaze_x := g.1, gaze_y := g.2 }

/-- State-passing embedding of `undistort_dataframe(df, camera_cal)`: the
first component is the caller's DataFrame after the call, the second the
returned frame.  The Python function starts with `undistorted_df = df.copy()`
(line 78) and writes only to the copy, so the argument comes back unchanged. -/
def undistort_dataframe (u : ℚ × ℚ → ℚ × ℚ) (df : List StabRow) :
    List StabRow × List StabRow :=
  (df, df.map (undistortRowWith u))

/-- One row of the frame consumed by `hm_to_deg.convert_to_visual_angles`.
The four angle columns are `none` before the conversion has run (the raw
`stabilized.csv` has no such columns); they live in `Option ℝ` because the
conversion computes real square roots and arctangents. -/
structure VizRow where
  eye_tracker : String
  participant_id : ℤ
  trial_condition : String
  gaze_x : ℚ
  gaze_y : ℚ
  target_x : ℚ
  target_y : ℚ
  top_left_x : ℚ
  top_left_y : ℚ
  top_right_x : ℚ
  top_right_y : ℚ
  bottom_left_x : ℚ
  bottom_left_y : ℚ
  bottom_right_x : ℚ
  bottom_right_y : ℚ
  distance_average : ℚ
  gaze_angle_x : Option ℝ
  gaze_angle_y : Option ℝ
  target_angle_x : Option ℝ
  target_angle_y : Option ℝ

/-- Physical reference dimensions `(real_width_mm, real_height_mm)` chosen by
`convert_to_visual_angles` (lines 95-119; `hm_distance.main` lines 113-133
contains the same table); `none` for an unknown tracker, where the Python
falls through with only a print and then hits an unbound local. -/
def realDims (eye_tracker : String) (participant_id : ℤ)
    (cond : String) : Option (ℚ × ℚ) :=
  if eye_tracker = "Pupil Core" then
    if participant_id ∈ ([319, 460, 503, 772, 844] : List ℤ) ∧ cond = "bright"
    then some (476.64, 268.11)
    else some (346.31, 137.78)
  else if eye_tracker = "Tobii Glasses 2" then
    if cond = "dark" then some (346.31, 137.78) else some (476.64, 268.11)
  else if eye_tracker = "SMI ETG" ∨ eye_tracker = "Pupil Neon" then
    some (346.31, 137.78)
  else none

/-- Scaling factor (mm/pixel) of `calculate_scaling_factor` (lines 44-79):
the mean of the four edge-based estimates, each a physical dimension divided
by a Euclidean pixel edge length. -/
noncomputable def calculate_scaling_factor (r : VizRow) (w h : ℚ) : ℝ :=
  let top_width_px : ℝ :=
    Real.sqrt (((r.top_right_x : ℝ) - r.top_left_x) ^ 2 +
      ((r.top_right_y : ℝ) - r.top_left_y) ^ 2)
  let bottom_width_px : ℝ :=
    Real.sqrt (((r.bottom_right_x : ℝ) - r.bottom_left_x) ^ 2 +
      ((r.bottom_right_y : ℝ) - r.bottom_left_y) ^ 2)
  let left_height_px : ℝ :=
    Real.sqrt (((r.bottom_left_x : ℝ) - r.top_left_x) ^ 2 +
      ((r.bottom_left_y : ℝ) - r.top_left_y) ^ 2)
  let right_height_px : ℝ :=
    Real.sqrt (((r.bottom_right_x : ℝ) - r.top_right_x) ^ 2 +
      ((r.bottom_right_y : ℝ) - r.top_right_y) ^ 2)
  ((w : ℝ) / top_width_px + (w : ℝ) / bottom_width_px +
    (h : ℝ) / left_height_px + (h : ℝ) / right_height_px) / 4

/-- Radians to degrees, `np.degrees`. -/
noncomputable def degreesR (x : ℝ) : ℝ := x * 180 / Real.pi

/-- The per-row computation of `convert_to_visual_angles` (lines 93-146):
look up the physical dimensions, compute the scaling factor, convert the
pixel offsets from the target (the "screen center") to millimeters and then
to visual angles `degrees(arctan(offset_mm / distance_mm))`, and store the
four results in the angle columns.  A row of an unknown tracker is returned
unchanged (the Python would raise `NameError` there; the branch is
unreachable for the four supported trackers). -/
noncomputable def convertRow (r : VizRow) : VizRow :=
  match realDims r.eye_tracker r.participant_id r.trial_condition with
  | none => r
  | some (w, h) =>
      let scale := calculate_scaling_factor r w h
      let gaze_x_mm := ((r.gaze_x : ℝ) - (r.target_x : ℝ)) * scale
      let gaze_y_mm := ((r.gaze_y : ℝ) - (r.target_y : ℝ)) * scale
      let target_x_mm := ((r.target_x : ℝ) - (r.target_x : ℝ)) * scale
      let target_y_mm := ((r.target_y : ℝ) - (r.target_y : ℝ)) * scale
      let distance_mm := (r.distance_average : ℝ)
      { r with
        gaze_angle_x := some (degreesR (Real.arctan (gaze_x_mm / distance_mm)))
        gaze_angle_y := some (degreesR (Real.arctan (gaze_y_mm / distance_mm)))
        target_angle_x := some (degreesR (Real.arctan (target_x_mm / distance_mm)))
        target_angle_y := some (degreesR (Real.arctan (target_y_mm / distance_mm))) }

/-- State-passing embedding of `convert_to_visual_angles(df)`: the first
component is the caller's DataFrame after the call, the second the returned
frame.  The Python function assigns the four angle columns directly to its
argument (`df["gaze_angle_x"] = ...`, lines 149-152) and returns that same
object, so both components are the converted frame: the argument is mutated. -/
noncomputable def convert_to_visual_angles (df : List VizRow) :
    List VizRow × List VizRow :=
  (df.map convertRow, df.map convertRow)

/-- One participant/device directory of a processing batch; `calibOk` records
whether `calibration.xml` exists and parses (`CameraCalibration.__init__`
raises `FileNotFoundError`/`ValueError` otherwise). -/
structure DataDir where
  name : String
  calibOk : Bool
deriving DecidableEq

/-- The directories whose processing completes when
`hm_nan_undistort_stabilize.main` (or `hm_distance.main`) runs on a batch:
the loop body constructs `CameraCalibration(data_dir / "calibration.xml")`
with no try/except around it, so the first directory whose calibration is
missing or malformed raises out of the loop and every later directory is
left unprocessed. -/
def processedDirs : List DataDir → List DataDir
  | [] => []
  | d :: ds => if d.calibOk then d :: processedDirs ds else []

/-! Concrete fixtures used by counterexamples and witnesses. -/

/-- A fully valid sample sitting on the target: gaze angles `(0, 0)`,
target angles `(0, 0)`, all critical columns present. -/
def sOne : Sample :=
  { idx := 0, time := some 0, gaze_x := some 0, gaze_y := some 0,
    gaze_angle_x := some 0, gaze_angle_y := some 0,
    target_angle_x := 0, target_angle_y := 0,
    pup_diam_l := some 3, pup_diam_r := some 3 }

/-- Sample builder for the order counterexample: row index `i`, time `t`,
both gaze angles `g`, left pupil diameter `pup` (possibly missing). -/
def mkOrd (i : ℤ) (t : ℚ) (g : ℚ) (pup : Option ℚ) : Sample :=
  { idx := i, time := some t, gaze_x := some 0, gaze_y := some 0,
    gaze_angle_x := some g, gaze_angle_y := some g,
    target_angle_x := 0, target_angle_y := 0,
    pup_diam_l := pup, pup_diam_r := some 3 }

/-- A trial with evenly spaced times 0..1000 whose last row has a missing
pupil diameter: NaN-removal before edge trimming shrinks the trim window. -/
def exOrdTrial : List Sample :=
  [mkOrd 0 0 1 (some 3), mkOrd 1 250 (-1) (some 3), mkOrd 2 500 0 (some 3),
   mkOrd 3 750 1 (some 3), mkOrd 4 1000 0 none]

/-- A sample at gaze angle `(3, 4)` (distance 5 from the origin target). -/
def sDist : Sample :=
  { idx := 0, time := some 0, gaze_x := some 0, gaze_y := some 0,
    gaze_angle_x := some 3, gaze_angle_y := some 4,
    target_angle_x := 0, target_angle_y := 0,
    pup_diam_l := some 3, pup_diam_r := some 3 }

/-- A fully valid sample with row index `i` and time `t`. -/
def idxS (i : ℤ) (t : ℚ) : Sample :=
  { idx := i, time := some t, gaze_x := some 0, gaze_y := some 0,
    gaze_angle_x := some 0, gaze_angle_y := some 0,
    target_angle_x := 0, target_angle_y := 0,
    pup_diam_l := some 3, pup_diam_r := some 3 }

/-- Eleven rows with indices 0..10: `int(10 * 12.5 / 100) = 1`, so the
index-trim keeps indices 1..9 while the claimed interval is `[1.25, 8.75]`. -/
def exHmTrial : List Sample :=
  [idxS 0 0, idxS 1 0, idxS 2 0, idxS 3 0, idxS 4 0, idxS 5 0, idxS 6 0,
   idxS 7 0, idxS 8 0, idxS 9 0, idxS 10 0]

/-- Three rows with times 0, 500, 1000 (edge-trim witness fixture). -/
def exTrimTrial : List Sample := [idxS 0 0, idxS 1 500, idxS 2 1000]

/-- Two rows with times 0 and 7000 (temporal-window witness fixture). -/
def exWinTrial : List Sample := [idxS 0 0, idxS 1 7000]

/-- A stabilization row with target `(tx, ty)` and gaze `(gx, gy)`, all
corner points at the target. -/
def mkStab (tx ty gx gy : ℚ) : StabRow :=
  { frame := 0, target_x := tx, target_y := ty,
    top_left_x := tx, top_left_y := ty, top_right_x := tx, top_right_y := ty,
    bottom_left_x := tx, bottom_left_y := ty,
    bottom_right_x := tx, bottom_right_y := ty, gaze_x := gx, gaze_y := gy }

/-- A `stabilized.csv` row of an SMI ETG recording, before the visual-angle
conversion has run: the four angle columns are absent (`none`). -/
def vizEx : VizRow :=
  { eye_tracker := "SMI ETG", participant_id := 100,
    trial_condition := "dark", gaze_x := 900, gaze_y := 500,
    target_x := 960, target_y := 540,
    top_left_x := 0, top_left_y := 0, top_right_x := 1920, top_right_y := 0,
    bottom_left_x := 0, bottom_left_y := 760,
    bottom_right_x := 1920, bottom_right_y := 760,
    distance_average := 600,
    gaze_angle_x := none, gaze_angle_y := none,
    target_angle_x := none, target_angle_y := none }

/-- A directory whose calibration file is missing. -/
def dirBad : DataDir := { name := "101/Pupil Core", calibOk := false }

/-- A directory with a valid calibration file. -/
def dirGood : DataDir := { name := "102/SMI ETG", calibOk := true }

/-! Helper lemmas. -/

theorem listMax?_mem {α : Type} [LinearOrder α] {l : List α} {m : α}
    (h : listMax? l = some m) : m ∈ l := by
  induction l with
  | nil => simp [listMax?] at h
  | cons x xs ih =>
    simp only [listMax?, Option.some.injEq] at h
    cases hx : listMax? xs with
    | none => rw [hx] at h; exact h ▸ List.mem_cons_self x xs
    | some m' =>
      rw [hx] at h
      simp only at h
      rcases max_choice x m' with hc | hc
      · rw [hc] at h; exact h ▸ List.mem_cons_self x xs
      · rw [hc] at h; subst h; exact List.mem_cons_of_mem x (ih hx)

theorem shiftRow_zero (r : StabRow) : shiftRow r 0 0 = r := by
  cases r; simp [shiftRow]

theorem stabilize_target (r0 : StabRow) (rest : List StabRow) (s : StabRow)
    (hs : s ∈ stabilize (r0 :: rest)) :
    s.target_x = r0.target_x ∧ s.target_y = r0.target_y := by
  simp only [stabilize, List.mem_map] at hs
  obtain ⟨r, -, rfl⟩ := hs
  constructor <;> simp [shiftRow]

theorem stabilize_cons_eq_self (r0 : StabRow) (rest : List StabRow)
    (h : ∀ s ∈ r0 :: rest, s.target_x = r0.target_x ∧ s.target_y = r0.target_y) :
    stabilize (r0 :: rest) = r0 :: rest := by
  simp only [stabilize, List.map_cons, sub_self, shiftRow_zero,
    List.cons.injEq, true_and]
  conv_rhs => rw [← List.map_id rest]
  apply List.map_congr_left
  intro r hr
  have h' := h r (List.mem_cons_of_mem _ hr)
  have hx : r0.target_x - r.target_x = 0 := by rw [h'.1, sub_self]
  have hy : r0.target_y - r.target_y = 0 := by rw [h'.2, sub_self]
  rw [hx, hy, shiftRow_zero, id]

/-! Claim theorems. -/

/-- C1: evaluation of the code at the failing input.  A trial whose
distance-filtered segment holds exactly one sample does NOT pass through the
z-score step unchanged: the z-score of a singleton is `0/0 = NaN`,
`NaN < z_threshold` is false, and the lone sample is removed, leaving the
cleaned trial empty instead of equal to the distance-filtered trial. -/
theorem C1_singleton_removed :
    distanceFilter 10 [sOne] = [sOne] ∧
      (distanceFilter 10 [sOne]).length < 2 ∧
      zFilter 3 (distanceFilter 10 [sOne]) = [] := by
  refine ⟨?_, ?_, ?_⟩ <;>
    norm_num [distanceFilter, sqDistToTarget, zFilter, zKeep, qVar, qMean,
      sOne, List.filter, List.filterMap]

/-- C2 counterexample: on a concrete trial whose last row carries a missing
pupil diameter, the processor's pipeline (NaN removal before edge trimming)
yields a different cleaned trial than the spec's stage order, so the claim
that every implementation applies the stages in the order
window, trim, NaN removal, distance, z-score is false. -/
theorem C2_processor_reorders :
    processorTrial 5000 25 10 3 exOrdTrial ≠
      specOrderTrial 5000 25 10 3 exOrdTrial := by
  norm_num [processorTrial, specOrderTrial, exOrdTrial, mkOrd, timeWindow,
    edgeTrim, dropNaN, distanceFilter, zFilter, zKeep, qVar, qMean,
    sqDistToTarget, times, listMax?, listMin?, List.filterMap, List.filter]

/-- C2 amended: per trial, `eyelink1000plus_data_cleaner` applies the stages
in the claimed order — window, edge trim, NaN removal, distance filter,
z-score filter — while `eyelink1000plus_data_processor` applies missing-data
removal before edge trimming (order 1, 3, 2, 4, 5). -/
theorem C2_stage_order (d tt thr zt : ℚ) (g : List Sample) :
    cleanerTrial d tt thr zt g = specOrderTrial d tt thr zt g ∧
      processorTrial d tt thr zt g =
        zFilter zt (distanceFilter thr (edgeTrim tt (dropNaN (timeWindow d g)))) :=
  ⟨rfl, rfl⟩

/-- C3: evaluation of the code at the failing input.  In a batch of two
directories where the first one's calibration file is missing, the
`CameraCalibration` constructor raises `FileNotFoundError` inside the
unguarded loop, so the second directory — whose calibration is fine — is
never processed: the failure is not isolated to its directory. -/
theorem C3_batch_aborts :
    dirGood.calibOk = true ∧ dirGood ∈ [dirBad, dirGood] ∧
      processedDirs [dirBad, dirGood] = [] := by
  refine ⟨rfl, by simp, ?_⟩
  simp [processedDirs, dirBad, dirGood]

/-- C5: in the `trial_condition` column the screen-based schema
normalization builds, every sample's condition is `"dilated"` exactly when
its trial number is odd, for any trial numbers `1..N`; the value is computed
from the trial index alone. -/
theorem C5_parity_rule (idxs : List ℤ) (p : ℤ × String)
    (hp : p ∈ idxs.zip (trial_condition_column idxs)) (hpos : 1 ≤ p.1) :
    p.2 = "dilated" ↔ Odd p.1 := by
  rw [trial_condition_column] at hp
  have hz : idxs.zip (idxs.map trial_condition) =
      idxs.map (fun a => (a, trial_condition a)) := by
    conv_lhs => rw [← List.map_id idxs]
    simpa using List.zip_map' id trial_condition idxs
  rw [hz, List.mem_map] at hp
  obtain ⟨a, -, rfl⟩ := hp
  simp only [trial_condition, Int.odd_iff]
  by_cases h : a % 2 = 1
  · simp [h]
  · simp only [if_neg h, h, iff_false]
    intro hc
    exact absurd hc (by decide)

/-- Witness for C5 at trial numbers `[1, 2]` and the sample produced for
trial 1. -/
theorem C5_parity_rule_witness :
    (((1 : ℤ), trial_condition 1).2 = "dilated" ↔ Odd ((1 : ℤ), trial_condition 1).1) :=
  C5_parity_rule [1, 2] (1, trial_condition 1)
    (by simp [trial_condition_column]) (by norm_num)

/-- C7: the pupil diameter derived from a raw pupil area equals
`15 * sqrt(rawArea / 11815)`, and the conversion is strictly monotone on
nonnegative raw areas. -/
theorem C7_pupil_diameter (a a1 a2 : ℝ) (ha : 0 ≤ a) (h1 : 0 ≤ a1)
    (h12 : a1 < a2) :
    pup_diam_mm a = 15 * Real.sqrt (a / 11815) ∧
      pup_diam_mm a1 < pup_diam_mm a2 := by
  have hval : EYELINK_REFERENCE_VALUE = (11815 : ℝ) := rfl
  have hc : 0 < Real.sqrt EYELINK_REFERENCE_VALUE :=
    Real.sqrt_pos.mpr (by rw [hval]; norm_num)
  constructor
  · rw [pup_diam_mm, EYELINK_REFERENCE_DIAMETER_MM, hval,
      Real.sqrt_div ha, mul_div_assoc]
  · rw [pup_diam_mm, pup_diam_mm, EYELINK_REFERENCE_DIAMETER_MM]
    exact (div_lt_div_iff_of_pos_right hc).mpr
      (mul_lt_mul_of_pos_left (Real.sqrt_lt_sqrt h1 h12) (by norm_num))

/-- Witness for C7 at raw areas 4 and 9. -/
theorem C7_pupil_diameter_witness :
    pup_diam_mm 4 = 15 * Real.sqrt (4 / 11815) ∧ pup_diam_mm 4 < pup_diam_mm 9 :=
  C7_pupil_diameter 4 4 9 (by norm_num) (by norm_num) (by norm_num)

/-- C4: every sample the spatial distance filter retains satisfies
`sqrt((gazeAngleX - targetAngleX)^2 + (gazeAngleY - targetAngleY)^2) ≤ distanceThreshold`,
and every sample of the same trial that the filter removes violates that
inequality. -/
theorem C4_distance_filter (thr : ℚ) (l : List Sample) (s : Sample) (gx gy : ℚ)
    (hthr : 0 ≤ thr) (hsl : s ∈ l) (hgx : s.gaze_angle_x = some gx)
    (hgy : s.gaze_angle_y = some gy) :
    (s ∈ distanceFilter thr l →
      Real.sqrt (((gx : ℝ) - (s.target_angle_x : ℝ)) ^ 2 +
          ((gy : ℝ) - (s.target_angle_y : ℝ)) ^ 2) ≤ (thr : ℝ)) ∧
    (s ∉ distanceFilter thr l →
      (thr : ℝ) < Real.sqrt (((gx : ℝ) - (s.target_angle_x : ℝ)) ^ 2 +
          ((gy : ℝ) - (s.target_angle_y : ℝ)) ^ 2)) := by
  have hmem : s ∈ distanceFilter thr l ↔
      (gx - s.target_angle_x) ^ 2 + (gy - s.target_angle_y) ^ 2 ≤ thr ^ 2 := by
    simp [distanceFilter, List.mem_filter, sqDistToTarget, hgx, hgy, hsl, hthr]
  constructor
  · intro h'
    rw [Real.sqrt_le_iff]
    refine ⟨by exact_mod_cast hthr, ?_⟩
    have hd2 := hmem.mp h'
    exact_mod_cast hd2
  · intro h'
    have hd2 : thr ^ 2 <
        (gx - s.target_angle_x) ^ 2 + (gy - s.target_angle_y) ^ 2 := by
      by_contra hle
      exact h' (hmem.mpr (not_lt.mp hle))
    refine (Real.lt_sqrt (by exact_mod_cast hthr)).mpr ?_
    exact_mod_cast hd2

/-- Witness for C4 on a singleton trial with gaze angles (3, 4) and the
default threshold 10. -/
theorem C4_distance_filter_witness :
    Real.sqrt ((((3 : ℚ) : ℝ) - ((sDist.target_angle_x : ℚ) : ℝ)) ^ 2 +
        (((4 : ℚ) : ℝ) - ((sDist.target_angle_y : ℚ) : ℝ)) ^ 2) ≤ ((10 : ℚ) : ℝ) :=
  (C4_distance_filter 10 [sDist] sDist 3 4 (by norm_num) (by simp) rfl rfl).1
    (by norm_num [distanceFilter, sqDistToTarget, sDist, List.filter])

/-- C6 counterexample: in the index-based trim of `hm_to_deg.clean_trials`,
a trial with indices 0..10 and total trim 25% retains the row at index 1
even though 1 lies strictly below the claimed closed-interval lower bound
`min + R * timeTrim / 200 = 0 + 10 * 25 / 200 = 1.25`, because the Python
truncates the offset with `int()`.  So the claim's exact interval is false
for the row-index implementation. -/
theorem C6_index_trim_truncates :
    idxS 1 0 ∈ hmTimeTrim (25 / 2) (25 / 2) exHmTrial ∧
      (((idxS 1 0).idx : ℚ) < (0 : ℚ) + ((10 : ℚ) - 0) * 25 / 200) := by
  constructor
  · norm_num [hmTimeTrim, exHmTrial, idxS, truncQ, listMax?, listMin?,
      List.filter]
  · norm_num [idxS]

/-- C6 amended: the time-based edge trimming retains exactly the samples in
the closed interval `[min + R*timeTrim/200, max - R*timeTrim/200]` computed
from the min/max of the remaining window; the index-based implementation
instead truncates each offset to an integer, retaining exactly
`[min + int(R*timeTrim/200), max - int(R*timeTrim/200)]`. -/
theorem C6_trim_bounds :
    (∀ (tt : ℚ) (l : List Sample) (s : Sample) (t mn mx : ℚ),
      0 < tt → s ∈ l → s.time = some t →
      listMin? (times l) = some mn → listMax? (times l) = some mx →
      (s ∈ edgeTrim tt l ↔
        mn + (mx - mn) * tt / 200 ≤ t ∧ t ≤ mx - (mx - mn) * tt / 200)) ∧
    (∀ (st et : ℚ) (l : List Sample) (s : Sample) (mn mx : ℤ),
      s ∈ l → listMin? (l.map Sample.idx) = some mn →
      listMax? (l.map Sample.idx) = some mx →
      (s ∈ hmTimeTrim st et l ↔
        mn + truncQ (((mx - mn : ℤ) : ℚ) * (st / 100)) ≤ s.idx ∧
          s.idx ≤ mx - truncQ (((mx - mn : ℤ) : ℚ) * (et / 100)))) := by
  constructor
  · intro tt l s t mn mx htt hsl hst hmn hmx
    have hb : (mx - mn) * (tt / 2) / 100 = (mx - mn) * tt / 200 := by ring
    rw [edgeTrim, if_pos htt, hmn, hmx]
    rw [List.mem_filter]
    simp only [hsl, true_and, hst, decide_eq_true_eq, hb]
  · intro st et l s mn mx hsl hmn hmx
    rw [hmTimeTrim, hmn, hmx]
    rw [List.mem_filter]
    simp only [hsl, true_and, decide_eq_true_eq]

/-- Witness for C6: the time-based bound applied to a trial with times
0, 500, 1000 and `timeTrim = 20` (sample at 500 is retained), and the
index-based bound applied to the 0..10 trial (row index 2 is retained). -/
theorem C6_trim_bounds_witness :
    idxS 1 500 ∈ edgeTrim 20 exTrimTrial ∧
      idxS 2 0 ∈ hmTimeTrim (25 / 2) (25 / 2) exHmTrial := by
  constructor
  · refine (C6_trim_bounds.1 20 exTrimTrial (idxS 1 500) 500 0 1000
      (by norm_num) (by simp [exTrimTrial]) rfl ?_ ?_).mpr (by norm_num)
    · norm_num [times, listMin?, List.filterMap, exTrimTrial, idxS]
    · norm_num [times, listMax?, List.filterMap, exTrimTrial, idxS]
  · refine (C6_trim_bounds.2 (25 / 2) (25 / 2) exHmTrial (idxS 2 0) 0 10
      (by simp [exHmTrial]) ?_ ?_).mpr (by norm_num [truncQ, idxS])
    · norm_num [listMin?, exHmTrial, idxS]
    · norm_num [listMax?, exHmTrial, idxS]

/-- C8 counterexample: `convert_to_visual_angles` mutates the DataFrame it
is passed — after the call the caller's frame carries the four angle
columns, so it no longer equals the frame that was passed in. -/
theorem C8_convert_mutates_argument :
    (convert_to_visual_angles [vizEx]).1 ≠ [vizEx] := by
  intro h
  simp only [convert_to_visual_angles, List.map_cons, List.map_nil,
    List.cons.injEq, and_true] at h
  have h2 : (convertRow vizEx).gaze_angle_x = vizEx.gaze_angle_x :=
    congrArg VizRow.gaze_angle_x h
  rw [show vizEx.gaze_angle_x = none from rfl] at h2
  rw [convertRow] at h2
  rw [show realDims vizEx.eye_tracker vizEx.participant_id
      vizEx.trial_condition = some (346.31, 137.78) from by
    norm_num [realDims, vizEx]] at h2
  simp at h2

/-- C8 amended: `undistort_dataframe` does not modify the DataFrame passed
to it (it copies first and writes only to the copy); `convert_to_visual_angles`
mutates its argument by assigning the four angle columns in place and
returns that same mutated frame. -/
theorem C8_stage_input_mutation (u : ℚ × ℚ → ℚ × ℚ) (df : List StabRow)
    (dv : List VizRow) :
    (undistort_dataframe u df).1 = df ∧
      (convert_to_visual_angles dv).1 = (convert_to_visual_angles dv).2 :=
  ⟨rfl, rfl⟩

/-- C9: head stabilization is idempotent — re-stabilizing a stabilized
dataset computes zero offsets and changes nothing — and after stabilization
every row's target coincides with the first row's target. -/
theorem C9_stabilization :
    (∀ l : List StabRow, stabilize (stabilize l) = stabilize l) ∧
      ∀ (r0 : StabRow) (rest : List StabRow) (s : StabRow),
        s ∈ stabilize (r0 :: rest) →
          s.target_x = r0.target_x ∧ s.target_y = r0.target_y := by
  constructor
  · intro l
    cases l with
    | nil => rfl
    | cons r0 rest =>
      cases hst : stabilize (r0 :: rest) with
      | nil => rfl
      | cons h0 t0 =>
        apply stabilize_cons_eq_self
        intro s hs
        rw [← hst] at hs
        have hs' := stabilize_target r0 rest s hs
        have hh0 : h0 ∈ stabilize (r0 :: rest) := by
          rw [hst]; exact List.mem_cons_self _ _
        have hh0' := stabilize_target r0 rest h0 hh0
        exact ⟨hs'.1.trans hh0'.1.symm, hs'.2.trans hh0'.2.symm⟩
  · exact stabilize_target

/-- Witness for C9 on a two-row dataset with distinct targets. -/
theorem C9_stabilization_witness :
    (shiftRow (mkStab 12 25 3 4)
        ((mkStab 10 20 1 2).target_x - (mkStab 12 25 3 4).target_x)
        ((mkStab 10 20 1 2).target_y - (mkStab 12 25 3 4).target_y)).target_x =
      (mkStab 10 20 1 2).target_x ∧
    (shiftRow (mkStab 12 25 3 4)
        ((mkStab 10 20 1 2).target_x - (mkStab 12 25 3 4).target_x)
        ((mkStab 10 20 1 2).target_y - (mkStab 12 25 3 4).target_y)).target_y =
      (mkStab 10 20 1 2).target_y :=
  C9_stabilization.2 (mkStab 10 20 1 2) [mkStab 12 25 3 4] _
    (List.mem_map.mpr ⟨mkStab 12 25 3 4, by simp, rfl⟩)

/-- C10: whenever a trial group has at least one sample with a non-missing
time-from-trial-start and the window length is nonnegative, temporal window
extraction keeps the sample attaining the maximum time, so the
zero-samples-remaining warning branch cannot fire. -/
theorem C10_window_keeps_max (d : ℚ) (l : List Sample) (m : ℚ)
    (hd : 0 ≤ d) (hm : listMax? (times l) = some m) :
    (∃ s ∈ timeWindow d l, s.time = some m) ∧ timeWindow d l ≠ [] := by
  have hmem : m ∈ times l := listMax?_mem hm
  rw [times, List.mem_filterMap] at hmem
  obtain ⟨s, hsl, hst⟩ := hmem
  have hsw : s ∈ timeWindow d l := by
    simp only [timeWindow, hm]
    refine List.mem_filter.mpr ⟨hsl, ?_⟩
    rw [hst]
    simp only [decide_eq_true_eq]
    exact ⟨by linarith, le_refl m⟩
  exact ⟨⟨s, hsw, hst⟩, List.ne_nil_of_mem hsw⟩

/-- Witness for C10: a trial with times 0 and 7000 and the default 5000 ms
window keeps the sample at time 7000. -/
theorem C10_window_keeps_max_witness :
    (∃ s ∈ timeWindow 5000 exWinTrial, s.time = some 7000) ∧
      timeWindow 5000 exWinTrial ≠ [] :=
  C10_window_keeps_max 5000 exWinTrial 7000 (by norm_num)
    (by norm_num [times, listMax?, List.filterMap, exWinTrial, idxS])

end PSA
